import Mathlib

/-!
Verification of the ShowCore CDK infrastructure repository.

The definitions below are a shallow embedding of the repository's Python
sources (`infrastructure/app.py`, `infrastructure/lib/stacks/*.py`,
`infrastructure/lib/constructs/tagging_utility.py`): each Lean definition
mirrors one Python function or resource declaration, with Python's dynamic
behaviour (string truthiness, `or`-chains, attribute lookup, dict update)
made explicit. Python strings are modelled as Lean `String`, with the
character-wise methods (`str.lower`, single-character `str.replace`)
written over the underlying character list so that every definition
evaluates by kernel reduction.
-/

deriving instance DecidableEq for Except

namespace ShowCore

/-- Python `str.lower()` (ASCII): lowercase every character. -/
def strLower (s : String) : String := ⟨s.data.map Char.toLower⟩

/-- Python `str.replace("_", "-")`: the pattern is a single character, so
replacement is character-wise. -/
def replaceUnderscores (s : String) : String :=
  ⟨s.data.map fun c => if c = '_' then '-' else c⟩

/-- Python truthiness of an `Optional[str]` value: `None` and the empty
string are falsy, every other string is truthy. -/
def pyTruthyStr : Option String → Bool
  | none => false
  | some s => !(s == "")

/-- State of a `ShowCoreBaseStack` after `__init__` (base_stack.py):
the stored `component`, the resolved `_env_name`, and the tags applied
by `_apply_standard_tags` (as ordered key/value pairs). -/
structure BaseStack where
  component : Option String
  envName : String
  tags : List (String × String)
deriving Repr, DecidableEq

/-- `environment or self.node.try_get_context("environment") or "production"`
(base_stack.py line 88), with Python `or` falling through falsy values. -/
def resolveEnvName (environment ctxEnvironment : Option String) : String :=
  if pyTruthyStr environment then environment.getD ""
  else if pyTruthyStr ctxEnvironment then ctxEnvironment.getD ""
  else "production"

/-- `ShowCoreBaseStack._apply_standard_tags` (base_stack.py lines 106-135):
five required tags in the order the `Tags.of(self).add` calls run, then the
`Component` tag exactly when `self.component` is truthy. -/
def applyStandardTags (component : Option String) (envName : String) :
    List (String × String) :=
  [("Project", "ShowCore"),
   ("Phase", "Phase1"),
   ("Environment", envName),
   ("ManagedBy", "CDK"),
   ("CostCenter", "Engineering")] ++
  (if pyTruthyStr component then [("Component", component.getD "")] else [])

/-- `ShowCoreBaseStack.__init__` (base_stack.py lines 66-94): resolves the
environment name, stores the component, and applies the standard tags. -/
def showCoreBaseStackInit (component environment ctxEnvironment : Option String) :
    BaseStack :=
  let envName := resolveEnvName environment ctxEnvironment
  { component := component
    envName := envName
    tags := applyStandardTags component envName }

/-- The `ValueError` message of `get_resource_name` (base_stack.py lines 170-173). -/
def componentNotSetMessage : String :=
  "Component must be set to generate resource names. Pass component parameter to ShowCoreBaseStack.__init__()"

/-- `ShowCoreBaseStack.get_resource_name` (base_stack.py lines 137-189):
raises `ValueError` when `self.component` is falsy; otherwise lowercases the
component and replaces underscores with hyphens, builds the parts list,
appends the suffix when it is truthy, and joins with `"-"`. -/
def getResourceName (st : BaseStack) (resourceType : String)
    (suffix : Option String) : Except String String :=
  if !(pyTruthyStr st.component) then
    Except.error componentNotSetMessage
  else
    let componentLower := replaceUnderscores (strLower (st.component.getD ""))
    let parts := ["showcore", componentLower, strLower st.envName, strLower resourceType]
    let allParts := if pyTruthyStr suffix then parts ++ [suffix.getD ""] else parts
    Except.ok (String.intercalate "-" allParts)

/-- The suffix contribution of `get_resource_name` as the code computes it:
nothing for `None` or the empty string, a hyphen plus the verbatim suffix
otherwise. -/
def suffixPart : Option String → String
  | none => ""
  | some s => if s == "" then "" else "-" ++ s

/-- A string is lowercase kebab-case when every character is a lowercase
letter, a digit, or a hyphen. -/
def isLowerKebab (s : String) : Bool :=
  s.data.all fun ch => ch.isLower || ch.isDigit || ch == '-'

/-- The storage stack state as `app.py` constructs it: component `"Storage"`,
no explicit environment, no context override. -/
def storageStackProd : BaseStack := showCoreBaseStackInit (some "Storage") none none

/-! ## Helper lemmas -/

/-- Joining four strings with `"-"`. -/
theorem intercalate_hyphen_four (a b c d : String) :
    String.intercalate "-" [a, b, c, d] = a ++ "-" ++ b ++ "-" ++ c ++ "-" ++ d := rfl

/-- Joining five strings with `"-"`. -/
theorem intercalate_hyphen_five (a b c d e : String) :
    String.intercalate "-" [a, b, c, d, e] = a ++ "-" ++ b ++ "-" ++ c ++ "-" ++ d ++ "-" ++ e := rfl

/-- The result of `get_resource_name` when the component is a nonempty
string: the lowercased, hyphenated parts joined with `"-"`, with the suffix
contribution of `suffixPart`. -/
theorem getResourceName_ok (st : BaseStack) (c : String)
    (hc : st.component = some c) (hne : c ≠ "")
    (resourceType : String) (suffix : Option String) :
    getResourceName st resourceType suffix =
      Except.ok ("showcore-" ++ replaceUnderscores (strLower c) ++ "-" ++
        strLower st.envName ++ "-" ++ strLower resourceType ++ suffixPart suffix) := by
  have htr : pyTruthyStr st.component = true := by
    simp [pyTruthyStr, hc, hne]
  unfold getResourceName
  rw [htr]
  simp only [Bool.not_true, Bool.false_eq_true, if_false, hc, Option.getD_some]
  cases suffix with
  | none =>
      simp [pyTruthyStr, suffixPart, intercalate_hyphen_four, String.append_assoc]
  | some s =>
      by_cases hs : s = ""
      · subst hs
        simp [pyTruthyStr, suffixPart, intercalate_hyphen_four, String.append_assoc]
      · simp [pyTruthyStr, hs, suffixPart, intercalate_hyphen_five, String.append_assoc]

/-! ## Claim theorems: resource naming -/

/-- C1: `get_resource_name` raises `ValueError` if and only if the stack's
component attribute is not set (`None` or the empty string); when the
component is set, the call returns a name and raises nothing. -/
theorem c1_resource_name_error_iff_component_unset
    (st : BaseStack) (resourceType : String) (suffix : Option String) :
    (∃ msg, getResourceName st resourceType suffix = Except.error msg) ↔
      st.component = none ∨ st.component = some "" := by
  cases hc : st.component with
  | none =>
      simp [getResourceName, pyTruthyStr, hc]
  | some s =>
      by_cases hs : s = "" <;>
        simp [getResourceName, pyTruthyStr, hc, hs]

/-- C2 counterexample: with the component set, calling `get_resource_name`
with the empty suffix `""` (a supplied suffix) returns the name with no
suffix appended, not the claimed name ending in `"-" ++ ""`. -/
theorem c2_counterexample_empty_suffix :
    getResourceName storageStackProd "bucket" (some "") =
      Except.ok "showcore-storage-production-bucket" ∧
    getResourceName storageStackProd "bucket" (some "") ≠
      Except.ok ("showcore-storage-production-bucket" ++ "-" ++ "") := by
  constructor <;> decide

/-- C2 (amended): for every stack whose component is set (a nonempty
string), `get_resource_name` returns `"showcore-"` + lowercase component
with underscores replaced by hyphens + `"-"` + lowercase environment +
`"-"` + lowercase resource type, with `"-" ++ suffix` appended exactly when
a nonempty suffix is given (`suffixPart`). -/
theorem c2_resource_name_format (st : BaseStack) (c : String)
    (hc : st.component = some c) (hne : c ≠ "")
    (resourceType : String) (suffix : Option String) :
    getResourceName st resourceType suffix =
      Except.ok ("showcore-" ++ replaceUnderscores (strLower c) ++ "-" ++
        strLower st.envName ++ "-" ++ strLower resourceType ++ suffixPart suffix) :=
  getResourceName_ok st c hc hne resourceType suffix

/-- A concrete stack exercising the naming convention: an underscore in the
component and an explicit environment. -/
def exampleNamedStack : BaseStack :=
  showCoreBaseStackInit (some "My_Component") (some "Staging") none

/-- C2 witness: the amended format theorem applied at a concrete input. -/
theorem c2_resource_name_format_witness :
    getResourceName exampleNamedStack "VPC" (some "Acc1") =
      Except.ok ("showcore-" ++ replaceUnderscores (strLower "My_Component") ++ "-" ++
        strLower exampleNamedStack.envName ++ "-" ++ strLower "VPC" ++
        suffixPart (some "Acc1")) :=
  c2_resource_name_format exampleNamedStack "My_Component" rfl (by decide) "VPC" (some "Acc1")

/-- C9: `get_resource_name` lowercases only the component, environment and
resource-type parts; a supplied (nonempty) suffix is appended verbatim after
a hyphen, so the suffix `"My_Suffix"` yields a name that is not lowercase
kebab-case even though the part before the suffix is. -/
theorem c9_suffix_appended_verbatim :
    (∀ (st : BaseStack) (c resourceType s : String),
        st.component = some c → c ≠ "" → s ≠ "" →
        getResourceName st resourceType (some s) =
          Except.ok ("showcore-" ++ replaceUnderscores (strLower c) ++ "-" ++
            strLower st.envName ++ "-" ++ strLower resourceType ++ "-" ++ s)) ∧
    getResourceName storageStackProd "bucket" (some "My_Suffix") =
      Except.ok "showcore-storage-production-bucket-My_Suffix" ∧
    isLowerKebab "showcore-storage-production-bucket-My_Suffix" = false ∧
    isLowerKebab "showcore-storage-production-bucket" = true := by
  refine ⟨?_, by decide, by decide, by decide⟩
  intro st c resourceType s hc hne hs
  have h := getResourceName_ok st c hc hne resourceType (some s)
  simpa [suffixPart, hs, String.append_assoc] using h

/-! ## Python dict model

`get_resource_tags` builds a Python dict and calls `dict.update`. A dict is
modelled as an ordered key/value list with unique keys: assignment replaces
the value of an existing key in place and appends a new key at the end,
exactly Python's insertion-order semantics. -/

/-- Python dict assignment `d[k] = v`: replace the value of an existing key
in place, append a new key at the end. -/
def dictInsert : List (String × String) → String → String → List (String × String)
  | [], k, v => [(k, v)]
  | p :: rest, k, v => if p.1 == k then (k, v) :: rest else p :: dictInsert rest k v

/-- Python `d.get(k)`: the value of the first entry with key `k`. -/
def dictLookup (d : List (String × String)) (k : String) : Option String :=
  (d.find? fun p => p.1 == k).map Prod.snd

/-- Python `d.update(upd)`: assign every entry of `upd` in order. -/
def dictUpdate (d upd : List (String × String)) : List (String × String) :=
  upd.foldl (fun acc p => dictInsert acc p.1 p.2) d

/-- `STANDARD_TAGS` (tagging_utility.py lines 29-35), in source order. -/
def STANDARD_TAGS : List (String × String) :=
  [("Project", "ShowCore"),
   ("Phase", "Phase1"),
   ("ManagedBy", "CDK"),
   ("CostCenter", "Engineering")]

/-- Python truthiness of an `Optional[Dict]`: `None` and the empty dict are
falsy. -/
def pyTruthyDict : Option (List (String × String)) → Bool
  | none => false
  | some a => !a.isEmpty

/-- `get_resource_tags` (tagging_utility.py lines 256-291): the dict literal
`{**STANDARD_TAGS, "Environment": environment, "Component": component}`,
then `tags.update(additional_tags)` when `additional_tags` is truthy. -/
def get_resource_tags (environment component : String)
    (additional_tags : Option (List (String × String))) : List (String × String) :=
  let tags := STANDARD_TAGS ++ [("Environment", environment), ("Component", component)]
  if pyTruthyDict additional_tags then dictUpdate tags (additional_tags.getD [])
  else tags

/-! ## Dict lemmas -/

/-- Looking a key up in a dict with one more entry at the front. -/
theorem dictLookup_cons (p : String × String) (d : List (String × String)) (k : String) :
    dictLookup (p :: d) k = if p.1 = k then some p.2 else dictLookup d k := by
  by_cases h : p.1 = k
  · have hb : (p.1 == k) = true := beq_iff_eq.mpr h
    simp [dictLookup, List.find?, hb, h]
  · have hb : (p.1 == k) = false := beq_eq_false_iff_ne.mpr h
    simp [dictLookup, List.find?, hb, h]

/-- Lookup after a single dict assignment. -/
theorem dictLookup_dictInsert (d : List (String × String)) (k v k' : String) :
    dictLookup (dictInsert d k v) k' = if k' = k then some v else dictLookup d k' := by
  induction d with
  | nil =>
      by_cases h : k' = k
      · simp [dictInsert, dictLookup_cons, dictLookup, h]
      · have : ¬ k = k' := fun e => h e.symm
        simp [dictInsert, dictLookup_cons, dictLookup, this, h]
  | cons p rest ih =>
      by_cases hpk : p.1 = k
      · have hb : (p.1 == k) = true := beq_iff_eq.mpr hpk
        by_cases h : k' = k
        · subst h
          simp [dictInsert, hb, dictLookup_cons, hpk]
        · have hk : ¬ k = k' := fun e => h e.symm
          have hp : ¬ p.1 = k' := fun e => h (e ▸ hpk ▸ rfl)
          simp [dictInsert, hb, dictLookup_cons, hk, hp, hpk, h]
      · have hb : (p.1 == k) = false := beq_eq_false_iff_ne.mpr hpk
        by_cases hpk' : p.1 = k'
        · have h : ¬ k' = k := fun e => hpk (hpk'.trans e)
          simp [dictInsert, hb, dictLookup_cons, hpk', h]
        · simp [dictInsert, hb, dictLookup_cons, hpk', ih]

/-- A key is absent from a dict exactly when lookup returns `none`. -/
theorem dictLookup_eq_none_iff (d : List (String × String)) (k : String) :
    dictLookup d k = none ↔ k ∉ d.map Prod.fst := by
  induction d with
  | nil => simp [dictLookup]
  | cons p rest ih =>
      by_cases h : p.1 = k
      · simp [dictLookup_cons, h, ih]
      · simp [dictLookup_cons, h, ih, Ne.symm h]

/-- Lookup after `dict.update`: the updating dict wins on its keys, the
original dict answers for the rest. -/
theorem dictLookup_dictUpdate (upd : List (String × String))
    (h : (upd.map Prod.fst).Nodup) (d : List (String × String)) (k : String) :
    dictLookup (dictUpdate d upd) k =
      match dictLookup upd k with
      | some v => some v
      | none => dictLookup d k := by
  induction upd generalizing d with
  | nil => simp [dictUpdate, dictLookup]
  | cons q rest ih =>
      simp only [List.map_cons, List.nodup_cons] at h
      obtain ⟨hq, hrest⟩ := h
      have step : dictUpdate d (q :: rest) = dictUpdate (dictInsert d q.1 q.2) rest := rfl
      rw [step, ih hrest, dictLookup_cons]
      by_cases hk : q.1 = k
      · have : dictLookup rest k = none := by
          rw [dictLookup_eq_none_iff]
          exact fun hm => hq (hk ▸ hm)
        rw [this, dictLookup_dictInsert]
        simp [hk]
      · by_cases hr : dictLookup rest k = none
        · rw [hr, dictLookup_dictInsert]
          simp [hk, Ne.symm hk]
        · obtain ⟨v, hv⟩ := Option.ne_none_iff_exists'.mp hr
          rw [hv]
          simp [hk]

/-- Assigning a fresh key appends it at the end. -/
theorem dictInsert_eq_append (d : List (String × String)) (k v : String)
    (h : k ∉ d.map Prod.fst) :
    dictInsert d k v = d ++ [(k, v)] := by
  induction d with
  | nil => simp [dictInsert]
  | cons p rest ih =>
      simp only [List.map_cons, List.mem_cons, not_or] at h
      have hb : (p.1 == k) = false := beq_eq_false_iff_ne.mpr (fun e => h.1 e.symm)
      simp [dictInsert, hb, ih h.2]

/-- `dict.update` with keys disjoint from the original dict appends the
updating entries in order. -/
theorem dictUpdate_eq_append (upd : List (String × String))
    (hn : (upd.map Prod.fst).Nodup) (d : List (String × String))
    (hd : ∀ x ∈ upd.map Prod.fst, x ∉ d.map Prod.fst) :
    dictUpdate d upd = d ++ upd := by
  induction upd generalizing d with
  | nil => simp [dictUpdate]
  | cons q rest ih =>
      simp only [List.map_cons, List.nodup_cons] at hn
      have step : dictUpdate d (q :: rest) = dictUpdate (dictInsert d q.1 q.2) rest := rfl
      rw [step, dictInsert_eq_append d q.1 q.2 (hd q.1 (by simp))]
      rw [ih hn.2]
      · simp
      · intro x hx
        simp only [List.map_append, List.mem_append, List.map_cons] at *
        rintro (hxd | hxq)
        · exact hd x (by simp [hx]) hxd
        · simp at hxq
          exact hn.1 (hxq ▸ hx)

/-! ## Claim theorems: tagging -/

/-- C7: every stack built through `ShowCoreBaseStack.__init__` carries, for
every constructor argument combination, the five standard tags
Project=ShowCore, Phase=Phase1, Environment=resolved environment name,
ManagedBy=CDK and CostCenter=Engineering, plus a Component tag exactly when
a component name is supplied (truthy). -/
theorem c7_base_stack_applies_standard_tags
    (component environment ctxEnvironment : Option String) :
    (("Project", "ShowCore") ∈ (showCoreBaseStackInit component environment ctxEnvironment).tags ∧
     ("Phase", "Phase1") ∈ (showCoreBaseStackInit component environment ctxEnvironment).tags ∧
     ("Environment", resolveEnvName environment ctxEnvironment) ∈
       (showCoreBaseStackInit component environment ctxEnvironment).tags ∧
     ("ManagedBy", "CDK") ∈ (showCoreBaseStackInit component environment ctxEnvironment).tags ∧
     ("CostCenter", "Engineering") ∈ (showCoreBaseStackInit component environment ctxEnvironment).tags) ∧
    (∀ c, component = some c → c ≠ "" →
      ("Component", c) ∈ (showCoreBaseStackInit component environment ctxEnvironment).tags) ∧
    ((component = none ∨ component = some "") →
      ∀ v, ("Component", v) ∉ (showCoreBaseStackInit component environment ctxEnvironment).tags) := by
  refine ⟨⟨?_, ?_, ?_, ?_, ?_⟩, ?_, ?_⟩
  · simp [showCoreBaseStackInit, applyStandardTags]
  · simp [showCoreBaseStackInit, applyStandardTags]
  · simp [showCoreBaseStackInit, applyStandardTags]
  · simp [showCoreBaseStackInit, applyStandardTags]
  · simp [showCoreBaseStackInit, applyStandardTags]
  · intro c hc hne
    simp [showCoreBaseStackInit, applyStandardTags, pyTruthyStr, hc, hne]
  · rintro (hc | hc) v <;>
      simp [showCoreBaseStackInit, applyStandardTags, pyTruthyStr, hc]

/-- C10 counterexample: `additional_tags = {"BackupRequired": "true"}` is
disjoint from the standard keys, yet the result is not exactly the standard
tags plus Environment and Component — it also contains the additional tag. -/
theorem c10_counterexample_disjoint_tags_kept :
    dictLookup (get_resource_tags "production" "Database" (some [("BackupRequired", "true")]))
        "BackupRequired" = some "true" ∧
    get_resource_tags "production" "Database" (some [("BackupRequired", "true")]) ≠
      STANDARD_TAGS ++ [("Environment", "production"), ("Component", "Database")] := by
  constructor <;> decide

/-- C10 (amended): `additional_tags` is merged last, so its value wins for
every key it contains (collisions with standard tags included) and other
keys keep their standard value; with `additional_tags = None` the result is
exactly the standard tags plus Environment and Component, and with disjoint
keys it is exactly those followed by the additional tags. -/
theorem c10_additional_tags_merged_last (environment component : String) :
    (∀ (a : List (String × String)), (a.map Prod.fst).Nodup →
       ∀ k v, dictLookup a k = some v →
         dictLookup (get_resource_tags environment component (some a)) k = some v) ∧
    (∀ (a : List (String × String)), (a.map Prod.fst).Nodup →
       ∀ k, dictLookup a k = none →
         dictLookup (get_resource_tags environment component (some a)) k =
           dictLookup (get_resource_tags environment component none) k) ∧
    get_resource_tags environment component none =
      STANDARD_TAGS ++ [("Environment", environment), ("Component", component)] ∧
    (∀ (a : List (String × String)), (a.map Prod.fst).Nodup →
       (∀ k ∈ a.map Prod.fst, dictLookup (get_resource_tags environment component none) k = none) →
       get_resource_tags environment component (some a) =
         get_resource_tags environment component none ++ a) := by
  refine ⟨?_, ?_, rfl, ?_⟩
  · intro a hn k v hkv
    match a, hkv with
    | [], hkv => simp [dictLookup] at hkv
    | q :: rest, hkv =>
        simp only [get_resource_tags, pyTruthyDict, List.isEmpty_cons, Bool.not_false, if_true,
          Option.getD_some]
        rw [dictLookup_dictUpdate _ hn, hkv]
  · intro a hn k hk
    match a with
    | [] => simp [get_resource_tags, pyTruthyDict]
    | q :: rest =>
        simp only [get_resource_tags, pyTruthyDict, List.isEmpty_cons, Bool.not_false, if_true,
          Option.getD_some]
        rw [dictLookup_dictUpdate _ hn, hk]
        simp [get_resource_tags, pyTruthyDict]
  · intro a hn hd
    match a with
    | [] => simp [get_resource_tags, pyTruthyDict]
    | q :: rest =>
        simp only [get_resource_tags, pyTruthyDict, List.isEmpty_cons, Bool.not_false, if_true,
          Option.getD_some]
        exact dictUpdate_eq_append _ hn _ (fun x hx =>
          (dictLookup_eq_none_iff _ x).mp (hd x hx))

/-! ## Network stack (network_stack.py) -/

/-- CDK `ec2.SubnetType` values used by the network stack. -/
inductive SubnetType
  | PUBLIC
  | PRIVATE_WITH_EGRESS
  | PRIVATE_ISOLATED
deriving Repr, DecidableEq

/-- One entry of the VPC's `subnet_configuration`. -/
structure SubnetConfiguration where
  name : String
  subnetType : SubnetType
  cidrMask : Nat
deriving Repr, DecidableEq

/-- The properties `_create_vpc` passes to `ec2.Vpc` (network_stack.py
lines 236-263). -/
structure VpcProps where
  cidr : String
  maxAzs : Nat
  natGateways : Nat
  subnetConfiguration : List SubnetConfiguration
  enableDnsHostnames : Bool
  enableDnsSupport : Bool
deriving Repr, DecidableEq

/-- `vpc_cidr = self.node.try_get_context("vpc_cidr") or "10.0.0.0/16"`
(network_stack.py line 127). -/
def resolveVpcCidr (ctx : Option String) : String :=
  if pyTruthyStr ctx then ctx.getD "" else "10.0.0.0/16"

/-- `enable_nat_gateway` context resolution (network_stack.py lines 128-130):
the context value when present, `False` when it is `None`. -/
def resolveEnableNatGateway (ctx : Option Bool) : Bool :=
  ctx.getD false

/-- `ShowCoreNetworkStack._create_vpc` (network_stack.py lines 156-263):
`nat_gateways=0 if not enable_nat_gateway else 1`, a public subnet pair, and
a private subnet pair whose type is `PRIVATE_WITH_EGRESS if
enable_nat_gateway else PRIVATE_ISOLATED`. -/
def createVpc (vpcCidr : String) (enableNatGateway : Bool) : VpcProps :=
  { cidr := vpcCidr
    maxAzs := 2
    natGateways := if !enableNatGateway then 0 else 1
    subnetConfiguration :=
      [{ name := "Public", subnetType := SubnetType.PUBLIC, cidrMask := 24 },
       { name := "Private"
         subnetType :=
           if enableNatGateway then SubnetType.PRIVATE_WITH_EGRESS
           else SubnetType.PRIVATE_ISOLATED
         cidrMask := 24 }]
    enableDnsHostnames := true
    enableDnsSupport := true }

/-- The VPC the network stack builds from its context values
(network_stack.py lines 126-134). -/
def networkStackVpc (ctxCidr : Option String) (ctxEnableNat : Option Bool) : VpcProps :=
  createVpc (resolveVpcCidr ctxCidr) (resolveEnableNatGateway ctxEnableNat)

/-! ## Claim theorems: network stack -/

/-- C4 counterexample: with the `enable_nat_gateway` context flag set to
true — a configuration the code accepts — the VPC is created with one NAT
gateway and `PRIVATE_WITH_EGRESS` private subnets, so the "no NAT gateway"
policy does not hold for every value of the flag. -/
theorem c4_counterexample_nat_flag_true :
    (networkStackVpc none (some true)).natGateways = 1 ∧
    (networkStackVpc none (some true)).natGateways ≠ 0 ∧
    (networkStackVpc none (some true)).subnetConfiguration.map SubnetConfiguration.subnetType =
      [SubnetType.PUBLIC, SubnetType.PRIVATE_WITH_EGRESS] := by
  refine ⟨rfl, by decide, rfl⟩

/-- C4 (amended): whenever the `enable_nat_gateway` context flag is unset or
false — the default — the VPC is created with zero NAT gateways and the
private subnets are of the isolated type. -/
theorem c4_no_nat_gateway_by_default (ctxCidr : Option String) (ctxEnableNat : Option Bool)
    (h : resolveEnableNatGateway ctxEnableNat = false) :
    (networkStackVpc ctxCidr ctxEnableNat).natGateways = 0 ∧
    (networkStackVpc ctxCidr ctxEnableNat).subnetConfiguration.map SubnetConfiguration.subnetType =
      [SubnetType.PUBLIC, SubnetType.PRIVATE_ISOLATED] := by
  unfold networkStackVpc createVpc
  rw [h]
  exact ⟨rfl, rfl⟩

/-- C4 witness: the amended theorem at the default configuration. -/
theorem c4_no_nat_gateway_by_default_witness :
    (networkStackVpc none none).natGateways = 0 ∧
    (networkStackVpc none none).subnetConfiguration.map SubnetConfiguration.subnetType =
      [SubnetType.PUBLIC, SubnetType.PRIVATE_ISOLATED] :=
  c4_no_nat_gateway_by_default none none rfl

/-! ## Durations and retention settings -/

/-- CDK `Duration`, in seconds. -/
structure Duration where
  seconds : Nat
deriving Repr, DecidableEq

/-- `Duration.days(n)`. -/
def Duration.days (n : Nat) : Duration := ⟨n * 86400⟩

/-- `Duration.hours(n)`. -/
def Duration.hours (n : Nat) : Duration := ⟨n * 3600⟩

/-- The properties `_create_rds_instance` passes to `rds.DatabaseInstance`
(database_stack.py lines 298-374). -/
structure RdsInstanceProps where
  engine : String
  engineVersion : String
  instanceClass : String
  instanceSize : String
  allocatedStorage : Nat
  storageType : String
  multiAz : Bool
  availabilityZone : String
  databaseName : String
  storageEncrypted : Bool
  backupRetention : Duration
  preferredBackupWindow : String
  preferredMaintenanceWindow : String
  autoMinorVersionUpgrade : Bool
  deletionProtection : Bool
  cloudwatchLogsExports : List String
  instanceIdentifier : Except String String
deriving Repr, DecidableEq

/-- `ShowCoreDatabaseStack._create_rds_instance` (database_stack.py lines
298-374), for a database stack state `st`. -/
def createRdsInstance (st : BaseStack) : RdsInstanceProps :=
  { engine := "postgres"
    engineVersion := "VER_16"
    instanceClass := "BURSTABLE3"
    instanceSize := "MICRO"
    allocatedStorage := 20
    storageType := "GP3"
    multiAz := false
    availabilityZone := "us-east-1a"
    databaseName := "showcore"
    storageEncrypted := true
    backupRetention := Duration.days 7
    preferredBackupWindow := "03:00-04:00"
    preferredMaintenanceWindow := "Sun:04:00-Sun:05:00"
    autoMinorVersionUpgrade := true
    deletionProtection := false
    cloudwatchLogsExports := ["postgresql"]
    instanceIdentifier := getResourceName st "rds" none }

/-- One `backup.BackupPlanRule` of the backup stack. -/
structure BackupPlanRule where
  ruleName : String
  scheduleDaily : Bool
  startWindow : Duration
  completionWindow : Duration
  deleteAfter : Duration
  enableContinuousBackup : Option Bool
deriving Repr, DecidableEq

/-- The rule of the RDS backup plan (backup_stack.py lines 253-274). -/
def rdsBackupPlanRule : BackupPlanRule :=
  { ruleName := "daily-rds-backup"
    scheduleDaily := true
    startWindow := Duration.hours 1
    completionWindow := Duration.hours 2
    deleteAfter := Duration.days 7
    enableContinuousBackup := some true }

/-- The rule of the ElastiCache backup plan (backup_stack.py lines 364-383). -/
def elasticacheBackupPlanRule : BackupPlanRule :=
  { ruleName := "daily-elasticache-snapshot"
    scheduleDaily := true
    startWindow := Duration.hours 1
    completionWindow := Duration.hours 2
    deleteAfter := Duration.days 7
    enableContinuousBackup := none }

/-- The properties `_create_redis_cluster` passes to
`elasticache.CfnCacheCluster` (cache_stack.py lines 265-287). -/
structure CfnCacheClusterProps where
  cacheNodeType : String
  engine : String
  engineVersion : String
  numCacheNodes : Nat
  clusterName : String
  preferredAvailabilityZone : String
  transitEncryptionEnabled : Bool
  port : Nat
  autoMinorVersionUpgrade : Bool
  snapshotRetentionLimit : Nat
  snapshotWindow : String
  preferredMaintenanceWindow : String
deriving Repr, DecidableEq

/-- `ShowCoreCacheStack._create_redis_cluster` (cache_stack.py lines 265-287). -/
def createRedisCluster : CfnCacheClusterProps :=
  { cacheNodeType := "cache.t3.micro"
    engine := "redis"
    engineVersion := "7.0"
    numCacheNodes := 1
    clusterName := "showcore-redis"
    preferredAvailabilityZone := "us-east-1a"
    transitEncryptionEnabled := true
    port := 6379
    autoMinorVersionUpgrade := true
    snapshotRetentionLimit := 7
    snapshotWindow := "03:00-04:00"
    preferredMaintenanceWindow := "sun:04:00-sun:05:00" }

/-! ## Claim theorems: backup retention -/

/-- C5: every backup-retention setting declared in the repository is seven
days: the RDS instance's `backup_retention` is `Duration.days(7)`, both AWS
Backup plan rules set `delete_after` to `Duration.days(7)` (and the
ElastiCache cluster's `snapshot_retention_limit` is likewise 7 days). -/
theorem c5_backup_retention_seven_days (st : BaseStack) :
    (createRdsInstance st).backupRetention = Duration.days 7 ∧
    rdsBackupPlanRule.deleteAfter = Duration.days 7 ∧
    elasticacheBackupPlanRule.deleteAfter = Duration.days 7 ∧
    createRedisCluster.snapshotRetentionLimit = 7 :=
  ⟨rfl, rfl, rfl, rfl⟩

/-! ## Storage stack (storage_stack.py) -/

/-- CDK `s3.BucketEncryption` values. -/
inductive BucketEncryption
  | S3_MANAGED
  | KMS
  | KMS_MANAGED
  | UNENCRYPTED
deriving Repr, DecidableEq

/-- CDK `s3.BlockPublicAccess` values. -/
inductive BlockPublicAccess
  | BLOCK_ALL
  | BLOCK_ACLS
deriving Repr, DecidableEq

/-- CDK `RemovalPolicy` values. -/
inductive RemovalPolicy
  | RETAIN
  | DESTROY
deriving Repr, DecidableEq

/-- CDK `s3.StorageClass` values used here. -/
inductive StorageClass
  | GLACIER
deriving Repr, DecidableEq

/-- One `s3.Transition` of a lifecycle rule. -/
structure S3Transition where
  storageClass : StorageClass
  transitionAfter : Duration
deriving Repr, DecidableEq

/-- One `s3.LifecycleRule`. -/
structure LifecycleRule where
  id : String
  enabled : Bool
  noncurrentVersionExpiration : Option Duration
  expiration : Option Duration
  transitions : List S3Transition
deriving Repr, DecidableEq

/-- The properties passed to `s3.Bucket`. -/
structure BucketProps where
  bucketName : String
  versioned : Bool
  encryption : BucketEncryption
  encryptionKey : Option String
  blockPublicAccess : BlockPublicAccess
  enforceSsl : Bool
  removalPolicy : RemovalPolicy
  lifecycleRules : List LifecycleRule
deriving Repr, DecidableEq

/-- `ShowCoreStorageStack._create_static_assets_bucket` (storage_stack.py
lines 106-171): `encryption_key` is never passed, so it stays `None`. -/
def createStaticAssetsBucket (accountId : String) : BucketProps :=
  { bucketName := "showcore-static-assets-" ++ accountId
    versioned := true
    encryption := BucketEncryption.S3_MANAGED
    encryptionKey := none
    blockPublicAccess := BlockPublicAccess.BLOCK_ALL
    enforceSsl := true
    removalPolicy := RemovalPolicy.RETAIN
    lifecycleRules :=
      [{ id := "DeleteOldVersions", enabled := true
         noncurrentVersionExpiration := some (Duration.days 90)
         expiration := none, transitions := [] }] }

/-- `ShowCoreStorageStack._create_backups_bucket` (storage_stack.py lines
174-261): `encryption_key` is never passed, so it stays `None`. -/
def createBackupsBucket (accountId : String) : BucketProps :=
  { bucketName := "showcore-backups-" ++ accountId
    versioned := true
    encryption := BucketEncryption.S3_MANAGED
    encryptionKey := none
    blockPublicAccess := BlockPublicAccess.BLOCK_ALL
    enforceSsl := true
    removalPolicy := RemovalPolicy.RETAIN
    lifecycleRules :=
      [{ id := "TransitionToGlacier", enabled := true
         noncurrentVersionExpiration := none, expiration := none
         transitions := [{ storageClass := StorageClass.GLACIER
                           transitionAfter := Duration.days 30 }] },
       { id := "DeleteOldBackups", enabled := true
         noncurrentVersionExpiration := none
         expiration := some (Duration.days 90), transitions := [] },
       { id := "DeleteOldVersions", enabled := true
         noncurrentVersionExpiration := some (Duration.days 90)
         expiration := none, transitions := [] }] }

/-! ## Claim theorems: storage stack -/

/-- C6: both S3 buckets of the storage stack use SSE-S3 (`S3_MANAGED`)
encryption with no KMS key, have versioning enabled, and block all public
access — for every account id. -/
theorem c6_buckets_sse_s3_versioned_private (accountId : String) :
    ((createStaticAssetsBucket accountId).encryption = BucketEncryption.S3_MANAGED ∧
     (createStaticAssetsBucket accountId).encryptionKey = none ∧
     (createStaticAssetsBucket accountId).versioned = true ∧
     (createStaticAssetsBucket accountId).blockPublicAccess = BlockPublicAccess.BLOCK_ALL) ∧
    ((createBackupsBucket accountId).encryption = BucketEncryption.S3_MANAGED ∧
     (createBackupsBucket accountId).encryptionKey = none ∧
     (createBackupsBucket accountId).versioned = true ∧
     (createBackupsBucket accountId).blockPublicAccess = BlockPublicAccess.BLOCK_ALL) :=
  ⟨⟨rfl, rfl, rfl, rfl⟩, ⟨rfl, rfl, rfl, rfl⟩⟩

/-! ## Application wiring (app.py) -/

/-- The stacks `app.py` constructs. -/
inductive StackId
  | network
  | security
  | monitoring
  | database
  | cache
  | storage
  | cdn
  | backup
deriving Repr, DecidableEq, Fintype

/-- The `add_dependency` calls `app.py` makes (lines 50-118), in source
order, each as (dependent stack, dependency). -/
def declaredDependencies : List (StackId × StackId) :=
  [(StackId.security, StackId.network),
   (StackId.database, StackId.network),
   (StackId.database, StackId.security),
   (StackId.cache, StackId.network),
   (StackId.cache, StackId.security),
   (StackId.cdn, StackId.storage),
   (StackId.backup, StackId.monitoring)]

/-- Data attributes a `ShowCoreStorageStack` instance has after `__init__`
(storage_stack.py lines 76-104 plus the base class): there is no
`static_assets_bucket_name`. -/
def storageStackAttrNames : List String :=
  ["component", "_env_name", "env_name", "static_assets_bucket", "backups_bucket"]

/-- Python attribute access `obj.name`: `AttributeError` when the instance
has no such attribute. -/
def getAttr (attrs : List String) (name : String) : Except String String :=
  if attrs.contains name then Except.ok name
  else Except.error ("AttributeError: " ++ name)

/-- The context values `app.py` reads (lines 32-34). -/
structure AppConfig where
  environment : Option String
  account : Option String
  region : Option String

/-- The evaluation of `app.py` (lines 29-120): stacks 1-6 are constructed
in order; step 7 evaluates the argument
`storage_stack.static_assets_bucket_name` before `ShowCoreCDNStack` is
constructed, and construction continues only when that attribute access
succeeds. Returns the constructed stacks and the error, if any, that
stopped evaluation. -/
def runShowCoreApp (cfg : AppConfig) : List (StackId × BaseStack) × Option String :=
  let ctxEnv := cfg.environment
  let constructed :=
    [(StackId.network, showCoreBaseStackInit (some "Network") none ctxEnv),
     (StackId.security, showCoreBaseStackInit (some "Security") none ctxEnv),
     (StackId.monitoring, showCoreBaseStackInit (some "Monitoring") none ctxEnv),
     (StackId.database, showCoreBaseStackInit (some "Database") none ctxEnv),
     (StackId.cache, showCoreBaseStackInit (some "Cache") none ctxEnv),
     (StackId.storage, showCoreBaseStackInit (some "Storage") none ctxEnv)]
  match getAttr storageStackAttrNames "static_assets_bucket_name" with
  | Except.error e => (constructed, some e)
  | Except.ok _ =>
      (constructed ++
        [(StackId.cdn, showCoreBaseStackInit (some "CDN") none ctxEnv),
         (StackId.backup, showCoreBaseStackInit (some "Backup") none ctxEnv)], none)

/-! ## Claim theorems: application wiring -/

/-- C3 counterexample: `app.py` declares no dependency of the storage stack
on the database or cache stack. -/
theorem c3_counterexample_no_storage_dependency :
    (StackId.storage, StackId.database) ∉ declaredDependencies ∧
    (StackId.storage, StackId.cache) ∉ declaredDependencies := by
  decide

/-- C3 (amended): the dependencies `app.py` declares are exactly security on
network, database and cache each on network and security, CDN on storage,
and backup on monitoring; the storage stack declares no dependency at all. -/
theorem c3_declared_dependencies_exactly :
    (∀ d : StackId × StackId, d ∈ declaredDependencies ↔
      (d = (StackId.security, StackId.network) ∨
       d = (StackId.database, StackId.network) ∨
       d = (StackId.database, StackId.security) ∨
       d = (StackId.cache, StackId.network) ∨
       d = (StackId.cache, StackId.security) ∨
       d = (StackId.cdn, StackId.storage) ∨
       d = (StackId.backup, StackId.monitoring))) ∧
    (∀ x : StackId, (StackId.storage, x) ∉ declaredDependencies) := by
  constructor
  · decide
  · decide

/-- C8: for every configuration, evaluating `app.py` stops with
`AttributeError` on `static_assets_bucket_name` before the CDN stack is
constructed: the storage stack exposes `static_assets_bucket`, not
`static_assets_bucket_name`. -/
theorem c8_app_attribute_error_before_cdn (cfg : AppConfig) :
    (runShowCoreApp cfg).2 = some "AttributeError: static_assets_bucket_name" ∧
    (∀ st, (StackId.cdn, st) ∉ (runShowCoreApp cfg).1) ∧
    storageStackAttrNames.contains "static_assets_bucket_name" = false ∧
    storageStackAttrNames.contains "static_assets_bucket" = true := by
  have h : getAttr storageStackAttrNames "static_assets_bucket_name" =
      Except.error "AttributeError: static_assets_bucket_name" := by decide
  refine ⟨?_, ?_, by decide, by decide⟩
  · simp [runShowCoreApp, h]
  · intro st
    simp [runShowCoreApp, h]

end ShowCore
